import Mathlib

/-!
Verification of the couch-nagger decision core: the box-overlap geometry
(`calculate_overlap_ratio` and the detection loop of
`UltralyticsDetector.detect`), the cooldown-gated alert logic of
`CouchMonitorApp.check_and_alert`, the monitor loop of
`CouchMonitorApp.run`, and the startup validation `AppSettings._validate`.
Coordinates, timestamps and thresholds are embedded as rationals.
-/

/-- An axis-aligned box `[x1, y1, x2, y2]` as handed around by the detector. -/
structure Box where
  x1 : ℚ
  y1 : ℚ
  x2 : ℚ
  y2 : ℚ
deriving DecidableEq, Repr

/-- Embedding of `calculate_overlap_ratio` from
`src/dog_detector/adapters/ultralytics_detector.py`: the fraction of the
dog box's area covered by the couch box, `0` when the intersection is
empty or edge-touching, `0` for a degenerate dog box. -/
def calculate_overlap_ratio (dog_box couch_box : Box) : ℚ :=
  let inter_x1 := max dog_box.x1 couch_box.x1
  let inter_y1 := max dog_box.y1 couch_box.y1
  let inter_x2 := min dog_box.x2 couch_box.x2
  let inter_y2 := min dog_box.y2 couch_box.y2
  if inter_x2 ≤ inter_x1 ∨ inter_y2 ≤ inter_y1 then 0
  else
    let intersection_area := (inter_x2 - inter_x1) * (inter_y2 - inter_y1)
    let dog_area := (dog_box.x2 - dog_box.x1) * (dog_box.y2 - dog_box.y1)
    if dog_area ≤ 0 then 0
    else intersection_area / dog_area

/-- The subject (dog) box area, as computed inside `calculate_overlap_ratio`. -/
def boxArea (b : Box) : ℚ := (b.x2 - b.x1) * (b.y2 - b.y1)

/-- Box `a` lies entirely within box `b` (coordinatewise containment). -/
def boxInside (a b : Box) : Prop :=
  b.x1 ≤ a.x1 ∧ b.y1 ≤ a.y1 ∧ a.x2 ≤ b.x2 ∧ a.y2 ≤ b.y2

instance (a b : Box) : Decidable (boxInside a b) := by
  unfold boxInside; infer_instance

/-- C6: `calculate_overlap_ratio` returns exactly `0` whenever the
projections of the two boxes on the x-axis or on the y-axis do not
strictly intersect (edge-touching included). -/
theorem overlap_zero_of_no_strict_intersection (A B : Box)
    (h : min A.x2 B.x2 ≤ max A.x1 B.x1 ∨ min A.y2 B.y2 ≤ max A.y1 B.y1) :
    calculate_overlap_ratio A B = 0 := by
  unfold calculate_overlap_ratio
  simp only [if_pos h]

/-- Witness for C6 at the edge-touching example
`A = [0,0,50,50]`, `B = [50,50,100,100]`. -/
theorem overlap_zero_of_no_strict_intersection_witness :
    calculate_overlap_ratio ⟨0, 0, 50, 50⟩ ⟨50, 50, 100, 100⟩ = 0 :=
  overlap_zero_of_no_strict_intersection ⟨0, 0, 50, 50⟩ ⟨50, 50, 100, 100⟩
    (by norm_num)

/-- Unfolding equation for `calculate_overlap_ratio`. -/
theorem calculate_overlap_ratio_eq (d c : Box) :
    calculate_overlap_ratio d c =
      if min d.x2 c.x2 ≤ max d.x1 c.x1 ∨ min d.y2 c.y2 ≤ max d.y1 c.y1 then 0
      else if (d.x2 - d.x1) * (d.y2 - d.y1) ≤ 0 then 0
      else (min d.x2 c.x2 - max d.x1 c.x1) * (min d.y2 c.y2 - max d.y1 c.y1) /
        ((d.x2 - d.x1) * (d.y2 - d.y1)) := rfl

/-- Totality and bounds of `calculate_overlap_ratio`, shared helper. -/
theorem overlap_ratio_props (d c : Box) :
    0 ≤ calculate_overlap_ratio d c ∧ calculate_overlap_ratio d c ≤ 1 ∧
      (boxArea d ≤ 0 → calculate_overlap_ratio d c = 0) ∧
      (boxInside d c → d.x1 < d.x2 → d.y1 < d.y2 →
        calculate_overlap_ratio d c = 1) := by
  rw [calculate_overlap_ratio_eq]
  by_cases hno : min d.x2 c.x2 ≤ max d.x1 c.x1 ∨ min d.y2 c.y2 ≤ max d.y1 c.y1
  · rw [if_pos hno]
    refine ⟨le_refl 0, by norm_num, fun _ => rfl, fun hin hdx hdy => ?_⟩
    exfalso
    obtain ⟨h1, h2, h3, h4⟩ := hin
    rcases hno with h | h
    · rw [min_eq_left h3, max_eq_left h1] at h
      exact absurd hdx (not_lt.mpr h)
    · rw [min_eq_left h4, max_eq_left h2] at h
      exact absurd hdy (not_lt.mpr h)
  · push_neg at hno
    obtain ⟨hx, hy⟩ := hno
    rw [if_neg (by push_neg; exact ⟨hx, hy⟩)]
    have hwx : min d.x2 c.x2 - max d.x1 c.x1 ≤ d.x2 - d.x1 := by
      have := min_le_left d.x2 c.x2
      have := le_max_left d.x1 c.x1
      linarith
    have hwy : min d.y2 c.y2 - max d.y1 c.y1 ≤ d.y2 - d.y1 := by
      have := min_le_left d.y2 c.y2
      have := le_max_left d.y1 c.y1
      linarith
    have hiw : 0 < min d.x2 c.x2 - max d.x1 c.x1 := by linarith
    have hih : 0 < min d.y2 c.y2 - max d.y1 c.y1 := by linarith
    have harea : 0 < (d.x2 - d.x1) * (d.y2 - d.y1) := by nlinarith
    have hinter :
        (min d.x2 c.x2 - max d.x1 c.x1) * (min d.y2 c.y2 - max d.y1 c.y1) ≤
          (d.x2 - d.x1) * (d.y2 - d.y1) :=
      mul_le_mul hwx hwy hih.le (by linarith)
    rw [if_neg (not_le.mpr harea)]
    refine ⟨le_of_lt (div_pos (mul_pos hiw hih) harea), ?_,
      fun hbad => absurd hbad (not_le.mpr harea), fun hin _ _ => ?_⟩
    · rw [div_le_one harea]
      exact hinter
    · obtain ⟨h1, h2, h3, h4⟩ := hin
      rw [min_eq_left h3, max_eq_left h1, min_eq_left h4, max_eq_left h2]
      exact div_self harea.ne'

/-- C7: `calculate_overlap_ratio` is total and bounded: for any two boxes,
malformed ones included, the result lies in `[0, 1]`; a subject with
area `≤ 0` yields `0`; and a valid non-degenerate subject (ordered
coordinates) lying entirely within the reference yields exactly `1`. -/
theorem overlap_total_bounded (d c : Box) :
    0 ≤ calculate_overlap_ratio d c ∧ calculate_overlap_ratio d c ≤ 1 ∧
      (boxArea d ≤ 0 → calculate_overlap_ratio d c = 0) ∧
      (boxInside d c → d.x1 < d.x2 → d.y1 < d.y2 →
        calculate_overlap_ratio d c = 1) :=
  overlap_ratio_props d c

/-- Witness for C7: the in-range bound at concrete boxes, the degenerate
subject `[10,10,10,40]` versus `[0,0,100,100]` yielding `0`, and the fully
contained subject `[25,25,75,75]` inside `[0,0,100,100]` yielding `1`. -/
theorem overlap_total_bounded_witness :
    (0 ≤ calculate_overlap_ratio ⟨0, 0, 100, 100⟩ ⟨50, 0, 150, 100⟩ ∧
      calculate_overlap_ratio ⟨0, 0, 100, 100⟩ ⟨50, 0, 150, 100⟩ ≤ 1) ∧
    calculate_overlap_ratio ⟨10, 10, 10, 40⟩ ⟨0, 0, 100, 100⟩ = 0 ∧
    calculate_overlap_ratio ⟨25, 25, 75, 75⟩ ⟨0, 0, 100, 100⟩ = 1 := by
  refine ⟨⟨(overlap_total_bounded ⟨0, 0, 100, 100⟩ ⟨50, 0, 150, 100⟩).1,
      (overlap_total_bounded ⟨0, 0, 100, 100⟩ ⟨50, 0, 150, 100⟩).2.1⟩,
    (overlap_total_bounded ⟨10, 10, 10, 40⟩ ⟨0, 0, 100, 100⟩).2.2.1 (by
      unfold boxArea; norm_num),
    (overlap_total_bounded ⟨25, 25, 75, 75⟩ ⟨0, 0, 100, 100⟩).2.2.2 (by
      unfold boxInside; norm_num) (by norm_num) (by norm_num)⟩

/-- Inner loop of `UltralyticsDetector.detect` over the couch boxes for one
dog box: folds each pair's ratio into the running maximum, and breaks with
`true` as soon as a ratio reaches `min_overlap_threshold` — the remaining
couch boxes are then never folded in, exactly as in the source. -/
def detectInner (threshold : ℚ) (dog_box : Box) :
    List Box → ℚ → ℚ × Bool
  | [], m => (m, false)
  | c :: cs, m =>
    let overlap := calculate_overlap_ratio dog_box c
    let m2 := max m overlap
    if threshold ≤ overlap then (m2, true)
    else detectInner threshold dog_box cs m2

/-- Outer loop of `UltralyticsDetector.detect` over the dog boxes: breaks
as soon as the inner loop reported `dog_on_couch = True`. -/
def detectOuter (threshold : ℚ) (couch_boxes : List Box) :
    List Box → ℚ → ℚ × Bool
  | [], m => (m, false)
  | d :: ds, m =>
    match detectInner threshold d couch_boxes m with
    | (m2, true) => (m2, true)
    | (m2, false) => detectOuter threshold couch_boxes ds m2

/-- The `(max_overlap_ratio, dog_on_couch)` pair computed by
`UltralyticsDetector.detect` (lines 82-92) from the classified dog and
couch boxes: both accumulators start at `0.0` / `False`. The first
component is the value passed as `overlap_ratio=` to the returned
`DetectionResult`. -/
def detectOverlap (threshold : ℚ) (dog_boxes couch_boxes : List Box) :
    ℚ × Bool :=
  detectOuter threshold couch_boxes dog_boxes 0

/-- All pairwise ratios of the cross product subjects x references, in
loop order. -/
def allRatios (subjects references : List Box) : List ℚ :=
  subjects.foldr
    (fun s acc => references.map (fun r => calculate_overlap_ratio s r) ++ acc)
    []

/-- Modelled from the spec: `maxOverlapRatio(subjects, references)` — the
maximum `overlapRatio` over the full cross product of subjects and
references, `0.0` if either sequence is empty. The repository has no
standalone function of this name; `detect` inlines (a short-circuited
version of) it. -/
def maxOverlapRatio (subjects references : List Box) : ℚ :=
  (allRatios subjects references).foldl max 0

/-- A threshold is reached by `l.foldl max a` exactly when the initial
accumulator or some list element reaches it. -/
theorem le_foldl_max_iff (t : ℚ) :
    ∀ (l : List ℚ) (a : ℚ), t ≤ l.foldl max a ↔ t ≤ a ∨ ∃ x ∈ l, t ≤ x := by
  intro l
  induction l with
  | nil => intro a; simp
  | cons x xs ih =>
    intro a
    rw [List.foldl_cons, ih (max a x)]
    constructor
    · rintro (h | ⟨y, hy, hty⟩)
      · rcases le_max_iff.mp h with h' | h'
        · exact Or.inl h'
        · exact Or.inr ⟨x, List.mem_cons_self x xs, h'⟩
      · exact Or.inr ⟨y, List.mem_cons_of_mem x hy, hty⟩
    · rintro (h | ⟨y, hy, hty⟩)
      · exact Or.inl (le_max_of_le_left h)
      · rcases List.mem_cons.mp hy with rfl | hy'
        · exact Or.inl (le_max_of_le_right hty)
        · exact Or.inr ⟨y, hy', hty⟩

/-- Membership in `allRatios` is exactly being the ratio of some pair. -/
theorem mem_allRatios (subjects references : List Box) (q : ℚ) :
    q ∈ allRatios subjects references ↔
      ∃ s ∈ subjects, ∃ r ∈ references, q = calculate_overlap_ratio s r := by
  induction subjects with
  | nil => simp [allRatios]
  | cons s ss ih =>
    simp only [allRatios, List.foldr_cons, List.mem_append, List.mem_map]
    rw [show List.foldr
        (fun s acc => references.map (fun r => calculate_overlap_ratio s r) ++ acc)
        [] ss = allRatios ss references from rfl, ih]
    constructor
    · rintro (⟨r, hr, rfl⟩ | ⟨s', hs', r, hr, rfl⟩)
      · exact ⟨s, List.mem_cons_self s ss, r, hr, rfl⟩
      · exact ⟨s', List.mem_cons_of_mem s hs', r, hr, rfl⟩
    · rintro ⟨s', hs', r, hr, rfl⟩
      rcases List.mem_cons.mp hs' with rfl | hs''
      · exact Or.inl ⟨r, hr, rfl⟩
      · exact Or.inr ⟨s', hs'', r, hr, rfl⟩

/-- The inner loop reports `true` exactly when some couch box's ratio with
the given dog box reaches the threshold, regardless of the accumulator. -/
theorem detectInner_snd_iff (t : ℚ) (d : Box) :
    ∀ (cs : List Box) (m : ℚ),
      (detectInner t d cs m).2 = true ↔
        ∃ c ∈ cs, t ≤ calculate_overlap_ratio d c := by
  intro cs
  induction cs with
  | nil => intro m; simp [detectInner]
  | cons c cs' ih =>
    intro m
    simp only [detectInner]
    by_cases h : t ≤ calculate_overlap_ratio d c
    · simp only [if_pos h]
      simp only [List.mem_cons]
      exact ⟨fun _ => ⟨c, Or.inl rfl, h⟩, fun _ => by trivial⟩
    · rw [if_neg h, ih]
      constructor
      · rintro ⟨c', hc', ht⟩
        exact ⟨c', List.mem_cons_of_mem c hc', ht⟩
      · rintro ⟨c', hc', ht⟩
        rcases List.mem_cons.mp hc' with rfl | hc''
        · exact absurd ht h
        · exact ⟨c', hc'', ht⟩

/-- The outer loop reports `dog_on_couch = true` exactly when some
(dog, couch) pair's ratio reaches the threshold. -/
theorem detectOuter_snd_iff (t : ℚ) (couches : List Box) :
    ∀ (ds : List Box) (m : ℚ),
      (detectOuter t couches ds m).2 = true ↔
        ∃ d ∈ ds, ∃ c ∈ couches, t ≤ calculate_overlap_ratio d c := by
  intro ds
  induction ds with
  | nil => intro m; simp [detectOuter]
  | cons d ds' ih =>
    intro m
    simp only [detectOuter]
    rcases hinner : detectInner t d couches m with ⟨m2, found⟩
    cases found with
    | true =>
      simp only [List.mem_cons]
      have := (detectInner_snd_iff t d couches m).mp (by rw [hinner])
      exact ⟨fun _ => by
        obtain ⟨c, hc, htc⟩ := this
        exact ⟨d, Or.inl rfl, c, hc, htc⟩, fun _ => by trivial⟩
    | false =>
      rw [ih m2]
      have hnone : ¬ ∃ c ∈ couches, t ≤ calculate_overlap_ratio d c := by
        rw [← detectInner_snd_iff t d couches m, hinner]
        simp
      constructor
      · rintro ⟨d', hd', hc⟩
        exact ⟨d', List.mem_cons_of_mem d hd', hc⟩
      · rintro ⟨d', hd', hc⟩
        rcases List.mem_cons.mp hd' with rfl | hd''
        · exact absurd hc hnone
        · exact ⟨d', hd'', hc⟩

/-- C1 (failing input): with one dog box `[0,0,100,100]` and couch boxes
`[[0,0,30,100], [0,0,100,100]]` at the default `min_overlap_threshold`
`0.3`, `detect`'s inner loop breaks at the first couch box (ratio exactly
`0.3`), so the `overlap_ratio` value it passes to `DetectionResult` is
`0.3`, while the maximum over the full cross product is `1` (the second
couch box fully contains the dog): the short-circuit does change the
returned maximum, and raising the threshold to `0.5` changes the carried
value to `1` on the very same boxes. -/
theorem detect_overlap_ratio_short_circuit_bug :
    detectOverlap (3/10) [⟨0, 0, 100, 100⟩] [⟨0, 0, 30, 100⟩, ⟨0, 0, 100, 100⟩]
        = (3/10, true) ∧
      maxOverlapRatio [⟨0, 0, 100, 100⟩] [⟨0, 0, 30, 100⟩, ⟨0, 0, 100, 100⟩]
        = 1 ∧
      detectOverlap (1/2) [⟨0, 0, 100, 100⟩] [⟨0, 0, 30, 100⟩, ⟨0, 0, 100, 100⟩]
        = (1, true) ∧
      (3/10 : ℚ) ≠ 1 := by
  refine ⟨?_, ?_, ?_, by norm_num⟩ <;>
    norm_num [detectOverlap, detectOuter, detectInner, maxOverlapRatio,
      allRatios, calculate_overlap_ratio_eq]

/-- C5 (amended): whenever the threshold is positive, or both box lists
are nonempty, `dog_on_couch` is `true` exactly when the maximum overlap
ratio over the full cross product reaches the threshold (inclusive
boundary); with both lists empty and a non-positive threshold the code
returns `false` although the maximum (`0`) reaches the threshold. -/
theorem dog_on_couch_iff_max_reaches_threshold (t : ℚ) (ds cs : List Box)
    (h : 0 < t ∨ (ds ≠ [] ∧ cs ≠ [])) :
    (detectOverlap t ds cs).2 = true ↔ t ≤ maxOverlapRatio ds cs := by
  rw [detectOverlap, detectOuter_snd_iff, maxOverlapRatio, le_foldl_max_iff]
  constructor
  · rintro ⟨d, hd, c, hc, ht⟩
    exact Or.inr ⟨calculate_overlap_ratio d c,
      (mem_allRatios ds cs _).mpr ⟨d, hd, c, hc, rfl⟩, ht⟩
  · rintro (ht0 | ⟨x, hx, htx⟩)
    · rcases h with hpos | ⟨hds, hcs⟩
      · exact absurd ht0 (not_le.mpr hpos)
      · obtain ⟨d, hd⟩ := List.exists_mem_of_ne_nil ds hds
        obtain ⟨c, hc⟩ := List.exists_mem_of_ne_nil cs hcs
        exact ⟨d, hd, c, hc, le_trans ht0 (overlap_ratio_props d c).1⟩
    · obtain ⟨d, hd, c, hc, rfl⟩ := (mem_allRatios ds cs x).mp hx
      exact ⟨d, hd, c, hc, htx⟩

/-- Counterexample to C5 as stated: with both lists empty and threshold
`0` (a value the configuration surface allows), the maximum overlap ratio
is `0`, which reaches the threshold, yet `dog_on_couch` is `false`. -/
theorem dog_on_couch_iff_max_counterexample :
    (detectOverlap 0 [] []).2 = false ∧
      (0 : ℚ) ≤ maxOverlapRatio [] [] := by
  exact ⟨rfl, le_refl 0⟩

/-- Witness for C5 at threshold `0.3`: the equivalence holds at a concrete
nonempty input, and ratios `0.25` / `0.30` / `0.31` land on the expected
sides of the inclusive boundary. -/
theorem dog_on_couch_iff_max_witness :
    ((detectOverlap (3/10) [⟨0, 0, 100, 100⟩] [⟨50, 0, 150, 100⟩]).2 = true ↔
      (3/10 : ℚ) ≤ maxOverlapRatio [⟨0, 0, 100, 100⟩] [⟨50, 0, 150, 100⟩]) ∧
    (detectOverlap (3/10) [⟨0, 0, 100, 100⟩] [⟨75, 0, 175, 100⟩]).2 = false ∧
    (detectOverlap (3/10) [⟨0, 0, 100, 100⟩] [⟨70, 0, 170, 100⟩]).2 = true ∧
    (detectOverlap (3/10) [⟨0, 0, 100, 100⟩] [⟨69, 0, 169, 100⟩]).2 = true := by
  refine ⟨dog_on_couch_iff_max_reaches_threshold (3/10)
    [⟨0, 0, 100, 100⟩] [⟨50, 0, 150, 100⟩]
    (Or.inl (by norm_num)), ?_, ?_, ?_⟩ <;>
    norm_num [detectOverlap, detectOuter, detectInner,
      calculate_overlap_ratio_eq]

/-- The decision-relevant mutable state of `CouchMonitorApp`: the single
`last_alert_time` field, initialized to `0.0` in `__init__`. -/
structure EngineState where
  last_alert_time : ℚ
deriving DecidableEq, Repr

/-- What one `check_and_alert` cycle did, as observable from outside:
the cycle's exception was caught (`cycleError`), the condition was not
met (`noAlert`), the alert sink was invoked and the timestamp updated
(`alerted`), or the cooldown suppressed the alert (`suppressed`). -/
inductive CycleOutcome where
  | cycleError
  | noAlert
  | alerted
  | suppressed
deriving DecidableEq, Repr

/-- The external events one cycle of `check_and_alert` consumes:
whether `frame_source.get_frame()` returned or raised, whether
`detector.detect(...)` returned (with its `dog_on_couch` verdict) or
raised, the value of `time.time()` at the decision point, and whether
`alert_sink.alert(...)` returned or raised. -/
structure CycleInput where
  frame : Except Unit Unit
  detection : Except Unit Bool
  now : ℚ
  alertOutcome : Except Unit Unit

/-- Embedding of `CouchMonitorApp.check_and_alert`: the whole cycle body
runs under one `try/except Exception` block, so a raise in any step
leaves `last_alert_time` untouched; when the condition is met, the
cooldown test is the strict `time_since_last_alert > self.alert_cooldown`,
the sink is called first, and only then is `last_alert_time` assigned. -/
def check_and_alert (alert_cooldown : ℚ) (s : EngineState) (c : CycleInput) :
    CycleOutcome × EngineState :=
  match c.frame with
  | .error _ => (.cycleError, s)
  | .ok _ =>
    match c.detection with
    | .error _ => (.cycleError, s)
    | .ok dog_on_couch =>
      if dog_on_couch then
        if alert_cooldown < c.now - s.last_alert_time then
          match c.alertOutcome with
          | .error _ => (.cycleError, s)
          | .ok _ => (.alerted, ⟨c.now⟩)
        else (.suppressed, s)
      else (.noAlert, s)

/-- Embedding of the `while self.running` loop of `CouchMonitorApp.run`
over a finite schedule of cycle inputs: each cycle runs `check_and_alert`
on the state the previous cycle left behind. -/
def runCycles (alert_cooldown : ℚ) (s : EngineState) :
    List CycleInput → List CycleOutcome × EngineState
  | [] => ([], s)
  | c :: cs =>
    let r := check_and_alert alert_cooldown s c
    let rest := runCycles alert_cooldown r.2 cs
    (r.1 :: rest.1, rest.2)

/-- The cycle with all collaborators succeeding and verdict `b`. -/
def okCycle (b : Bool) (now : ℚ) : CycleInput := ⟨.ok (), .ok b, now, .ok ()⟩

/-- The cycle whose alert sink raises. -/
def sinkFailCycle (now : ℚ) : CycleInput := ⟨.ok (), .ok true, now, .error ()⟩

/-- Shared helper: a cycle either leaves the state untouched (every
non-`alerted` outcome), or it alerted, stored the cycle's `now`, and the
strict cooldown test had passed. -/
theorem check_and_alert_cases (cd : ℚ) (s : EngineState) (c : CycleInput) :
    ((check_and_alert cd s c).1 ≠ .alerted ∧ (check_and_alert cd s c).2 = s) ∨
      ((check_and_alert cd s c).1 = .alerted ∧
        (check_and_alert cd s c).2 = ⟨c.now⟩ ∧
        cd < c.now - s.last_alert_time) := by
  rcases c with ⟨f, det, now, ao⟩
  cases f with
  | error e => exact Or.inl ⟨by simp [check_and_alert], rfl⟩
  | ok u =>
    cases det with
    | error e => exact Or.inl ⟨by simp [check_and_alert], rfl⟩
    | ok b =>
      cases b with
      | false => exact Or.inl ⟨by simp [check_and_alert], rfl⟩
      | true =>
        by_cases h : cd < now - s.last_alert_time
        · cases ao with
          | error e =>
            exact Or.inl ⟨by simp [check_and_alert, if_pos h], by
              simp [check_and_alert, if_pos h]⟩
          | ok u' =>
            exact Or.inr ⟨by simp [check_and_alert, if_pos h], by
              simp [check_and_alert, if_pos h], h⟩
        · exact Or.inl ⟨by simp [check_and_alert, if_neg h], by
            simp [check_and_alert, if_neg h]⟩

/-- Shared helper: the fully successful condition-met cycle past the
cooldown alerts and stores `now`. -/
theorem check_and_alert_fires (cd : ℚ) (s : EngineState) (now : ℚ)
    (h : cd < now - s.last_alert_time) :
    check_and_alert cd s (okCycle true now) = (.alerted, ⟨now⟩) := by
  simp [check_and_alert, okCycle, if_pos h]

/-- Shared helper: the fully successful condition-met cycle within the
cooldown (inclusive) is suppressed and leaves the state unchanged. -/
theorem check_and_alert_suppresses (cd : ℚ) (s : EngineState) (now : ℚ)
    (h : now - s.last_alert_time ≤ cd) :
    check_and_alert cd s (okCycle true now) = (.suppressed, s) := by
  simp [check_and_alert, okCycle, if_neg (not_lt.mpr h)]

/-- C2: with the condition met and every collaborator succeeding, the
cooldown comparison is strictly greater-than: strictly more than
`alert_cooldown` elapsed yields `alerted` and stores `now`; exactly the
cooldown elapsed (or less) yields `suppressed` with the state unchanged. -/
theorem cooldown_boundary_strict (cd : ℚ) (s : EngineState) (now : ℚ) :
    (cd < now - s.last_alert_time →
      check_and_alert cd s (okCycle true now) = (.alerted, ⟨now⟩)) ∧
    (now - s.last_alert_time ≤ cd →
      check_and_alert cd s (okCycle true now) = (.suppressed, s)) :=
  ⟨check_and_alert_fires cd s now, check_and_alert_suppresses cd s now⟩

/-- Witness for C2 at `cooldown = 300`, `last_alert_time = 1000`: a call
at `t = 1301` alerts, a call at exactly `t = 1300` is suppressed. -/
theorem cooldown_boundary_strict_witness :
    check_and_alert 300 ⟨1000⟩ (okCycle true 1301) = (.alerted, ⟨1301⟩) ∧
    check_and_alert 300 ⟨1000⟩ (okCycle true 1300) = (.suppressed, ⟨1000⟩) :=
  ⟨(cooldown_boundary_strict 300 ⟨1000⟩ 1301).1 (by norm_num),
    (cooldown_boundary_strict 300 ⟨1000⟩ 1300).2 (by norm_num)⟩

/-- C8: with a non-negative configured cooldown, a clock rollback
(`now` strictly before `last_alert_time`) on a condition-met cycle is
treated as within the cooldown: the outcome is `suppressed` and the state
is unchanged (and the embedding is total, so no error is possible). -/
theorem clock_rollback_suppressed (cd : ℚ) (s : EngineState) (now : ℚ)
    (hcd : 0 ≤ cd) (hroll : now < s.last_alert_time) :
    check_and_alert cd s (okCycle true now) = (.suppressed, s) :=
  check_and_alert_suppresses cd s now (by linarith)

/-- Witness for C8 at `cooldown = 300`, `last_alert_time = 1000`,
`now = 500`. -/
theorem clock_rollback_suppressed_witness :
    check_and_alert 300 ⟨1000⟩ (okCycle true 500) = (.suppressed, ⟨1000⟩) :=
  clock_rollback_suppressed 300 ⟨1000⟩ 500 (by norm_num) (by norm_num)

/-- Unfolding equation for one step of `runCycles`. -/
theorem runCycles_cons (cd : ℚ) (s : EngineState) (c : CycleInput)
    (cs : List CycleInput) :
    runCycles cd s (c :: cs) =
      ((check_and_alert cd s c).1 ::
          (runCycles cd (check_and_alert cd s c).2 cs).1,
        (runCycles cd (check_and_alert cd s c).2 cs).2) := rfl

/-- Shared helper: with a non-negative cooldown one cycle never moves
`last_alert_time` backward. -/
theorem check_and_alert_last_le (cd : ℚ) (hcd : 0 ≤ cd) (s : EngineState)
    (c : CycleInput) :
    s.last_alert_time ≤ (check_and_alert cd s c).2.last_alert_time := by
  rcases check_and_alert_cases cd s c with ⟨_, heq⟩ | ⟨_, heq, hlt⟩
  · rw [heq]
  · rw [heq]
    show s.last_alert_time ≤ c.now
    linarith

/-- Shared helper: with a non-negative cooldown `last_alert_time` never
decreases over any schedule of cycles. -/
theorem runCycles_last_le (cd : ℚ) (hcd : 0 ≤ cd) :
    ∀ (l : List CycleInput) (s : EngineState),
      s.last_alert_time ≤ (runCycles cd s l).2.last_alert_time := by
  intro l
  induction l with
  | nil => intro s; exact le_refl _
  | cons c cs ih =>
    intro s
    rw [runCycles_cons]
    exact le_trans (check_and_alert_last_le cd hcd s c)
      (ih (check_and_alert cd s c).2)

/-- C9: under a non-negative configured cooldown, `last_alert_time` is
mutated only by an `alerted` cycle, and then to the strictly later
current time; every other outcome leaves the whole engine state
unchanged; and across any sequence of cycles it never decreases. -/
theorem last_alert_time_monotone (cd : ℚ) (hcd : 0 ≤ cd) (s : EngineState)
    (c : CycleInput) (l : List CycleInput) :
    ((check_and_alert cd s c).1 ≠ .alerted → (check_and_alert cd s c).2 = s) ∧
    ((check_and_alert cd s c).1 = .alerted →
      s.last_alert_time < (check_and_alert cd s c).2.last_alert_time) ∧
    s.last_alert_time ≤ (runCycles cd s l).2.last_alert_time := by
  refine ⟨fun hne => ?_, fun ha => ?_, runCycles_last_le cd hcd l s⟩
  · rcases check_and_alert_cases cd s c with ⟨_, heq⟩ | ⟨ha, _, _⟩
    · exact heq
    · exact absurd ha hne
  · rcases check_and_alert_cases cd s c with ⟨hne, _⟩ | ⟨_, heq, hlt⟩
    · exact absurd ha hne
    · rw [heq]
      show s.last_alert_time < c.now
      linarith

/-- Witness for C9 at `cooldown = 300`, `last_alert_time = 1000`: the
suppressed cycle at `t = 1100` leaves the state unchanged, and the
two-cycle schedule `[1100, 1500]` never moves the timestamp backward. -/
theorem last_alert_time_monotone_witness :
    (check_and_alert 300 ⟨1000⟩ (okCycle true 1100)).2 = ⟨1000⟩ ∧
    (1000 : ℚ) ≤
      (runCycles 300 ⟨1000⟩
        [okCycle true 1100, okCycle true 1500]).2.last_alert_time := by
  have h := last_alert_time_monotone 300 (by norm_num) ⟨1000⟩
    (okCycle true 1100) [okCycle true 1100, okCycle true 1500]
  refine ⟨h.1 ?_, h.2.2⟩
  rw [check_and_alert_suppresses 300 ⟨1000⟩ 1100 (by norm_num)]
  simp

/-- C3: a cycle whose step raised (outcome `cycleError`) is contained to
that cycle: the loop's behavior on the remaining schedule is exactly the
behavior it would have had from the pre-failure state — the state is
preserved, every later cycle still runs, and in particular a subsequent
fully successful condition-met cycle past the cooldown still alerts. -/
theorem failing_cycle_contained (cd : ℚ) (s : EngineState) (c : CycleInput)
    (rest : List CycleInput)
    (hfail : (check_and_alert cd s c).1 = .cycleError) :
    runCycles cd s (c :: rest) =
      (.cycleError :: (runCycles cd s rest).1, (runCycles cd s rest).2) ∧
    ∀ now : ℚ, cd < now - s.last_alert_time →
      (runCycles cd s [c, okCycle true now]).1 = [.cycleError, .alerted] := by
  have hstate : (check_and_alert cd s c).2 = s := by
    rcases check_and_alert_cases cd s c with ⟨_, heq⟩ | ⟨ha, _, _⟩
    · exact heq
    · rw [hfail] at ha
      exact absurd ha (by simp)
  constructor
  · rw [runCycles_cons, hfail, hstate]
  · intro now hnow
    rw [runCycles_cons, hfail, hstate]
    simp [runCycles, check_and_alert_fires cd s now hnow]

/-- Witness for C3: a frame-acquisition failure at `t = 900` followed by
a successful condition-met cycle at `t = 1000` under `cooldown = 300`
starting from `last_alert_time = 0`: the failure is contained and the
next cycle alerts. -/
theorem failing_cycle_contained_witness :
    runCycles 300 ⟨0⟩ [⟨.error (), .ok true, 900, .ok ()⟩, okCycle true 1000] =
      (.cycleError :: (runCycles 300 ⟨0⟩ [okCycle true 1000]).1,
        (runCycles 300 ⟨0⟩ [okCycle true 1000]).2) ∧
    (runCycles 300 ⟨0⟩
        [⟨.error (), .ok true, 900, .ok ()⟩, okCycle true 1000]).1 =
      [.cycleError, .alerted] := by
  have h := failing_cycle_contained 300 ⟨0⟩ ⟨.error (), .ok true, 900, .ok ()⟩
    [okCycle true 1000] rfl
  exact ⟨h.1, h.2 1000 (by norm_num)⟩

/-- C10: when the condition is met, the cooldown has elapsed, and the
alert sink raises, the exception is caught at the cycle boundary with
`last_alert_time` unchanged (the assignment follows the sink call), so no
cooldown starts: the very next fully successful condition-met cycle past
the true cooldown alerts instead of being suppressed. -/
theorem failed_alert_starts_no_cooldown (cd : ℚ) (s : EngineState)
    (n1 n2 : ℚ) (h1 : cd < n1 - s.last_alert_time)
    (h2 : cd < n2 - s.last_alert_time) :
    check_and_alert cd s (sinkFailCycle n1) = (.cycleError, s) ∧
    (runCycles cd s [sinkFailCycle n1, okCycle true n2]).1 =
      [.cycleError, .alerted] := by
  have hfirst : check_and_alert cd s (sinkFailCycle n1) = (.cycleError, s) := by
    simp [check_and_alert, sinkFailCycle, if_pos h1]
  refine ⟨hfirst, ?_⟩
  rw [runCycles_cons, hfirst]
  simp [runCycles, check_and_alert_fires cd s n2 h2]

/-- Witness for C10 at `cooldown = 300`, `last_alert_time = 0`: the sink
fails at `t = 1000`, and the retry at `t = 1001` — only one second later,
well within what the cooldown would have been had the failed alert
started one — alerts; had the `t = 1000` alert succeeded, the `t = 1001`
cycle would have been suppressed. -/
theorem failed_alert_starts_no_cooldown_witness :
    check_and_alert 300 ⟨0⟩ (sinkFailCycle 1000) = (.cycleError, ⟨0⟩) ∧
    (runCycles 300 ⟨0⟩ [sinkFailCycle 1000, okCycle true 1001]).1 =
      [.cycleError, .alerted] ∧
    (runCycles 300 ⟨0⟩ [okCycle true 1000, okCycle true 1001]).1 =
      [.alerted, .suppressed] := by
  have h := failed_alert_starts_no_cooldown 300 ⟨0⟩ 1000 1001
    (by norm_num) (by norm_num)
  refine ⟨h.1, h.2, ?_⟩
  rw [runCycles_cons, check_and_alert_fires 300 ⟨0⟩ 1000 (by norm_num)]
  simp [runCycles, check_and_alert_suppresses 300 ⟨1000⟩ 1001 (by norm_num)]

/-- The fields of `ModelSettings` the validation logic can see. -/
structure ModelSettings where
  confidence_threshold : ℚ
  person_confidence_threshold : ℚ
deriving DecidableEq, Repr

/-- The fields of `DetectionSettings` the validation logic can see. -/
structure DetectionSettings where
  check_interval : ℚ
  alert_cooldown : ℚ
  min_overlap_threshold : ℚ
deriving DecidableEq, Repr

/-- The fields of `CameraSettings` the validation logic can see. -/
structure CameraSettings where
  width : ℤ
  height : ℤ
deriving DecidableEq, Repr

/-- The numeric configuration surface of `AppSettings`. -/
structure AppSettings where
  model : ModelSettings
  detection : DetectionSettings
  camera : CameraSettings
deriving DecidableEq, Repr

/-- Embedding of `AppSettings._validate` (settings.py lines 174-185),
the startup validation run by `AppSettings.load` before any settings
object reaches the monitor loop: it raises (`error`) on non-positive
camera dimensions, a main confidence threshold outside `[0, 1]`, a
non-positive check interval, or a negative cooldown — and checks nothing
else. -/
def AppSettings.validate (s : AppSettings) : Except String Unit :=
  if s.camera.width ≤ 0 ∨ s.camera.height ≤ 0 then
    .error "Camera width/height must be positive"
  else if ¬ (0 ≤ s.model.confidence_threshold ∧
      s.model.confidence_threshold ≤ 1) then
    .error "CONFIDENCE_THRESHOLD must be between 0 and 1"
  else if s.detection.check_interval ≤ 0 then
    .error "CHECK_INTERVAL must be > 0"
  else if s.detection.alert_cooldown < 0 then
    .error "ALERT_COOLDOWN must be >= 0"
  else .ok ()

/-- C4 (amended): startup validation rejects every configuration with a
negative cooldown, a non-positive sampling interval, a main confidence
threshold outside `[0, 1]`, or non-positive camera dimensions — so no
loop starts with such values — but the person confidence threshold and
the minimum overlap-ratio threshold are NOT validated: a passing
configuration constrains only the four checked quantities. -/
theorem validate_checks_core_ranges (s : AppSettings)
    (h : s.validate = .ok ()) :
    0 ≤ s.detection.alert_cooldown ∧ 0 < s.detection.check_interval ∧
      0 ≤ s.model.confidence_threshold ∧ s.model.confidence_threshold ≤ 1 ∧
      0 < s.camera.width ∧ 0 < s.camera.height := by
  unfold AppSettings.validate at h
  split_ifs at h with hcam hconf hint hcool
  push_neg at hcam hconf
  exact ⟨not_lt.mp hcool, not_le.mp hint, hconf.1, hconf.2, hcam.1, hcam.2⟩

/-- Counterexample to C4 as stated: a configuration whose person
confidence threshold is `2` and whose minimum overlap-ratio threshold is
`5` — both far outside `[0, 1]` — passes `_validate` untouched, because
neither field is ever checked. -/
theorem validate_misses_two_thresholds :
    AppSettings.validate ⟨⟨1/5, 2⟩, ⟨10, 300, 5⟩, ⟨640, 480⟩⟩ = .ok () ∧
      ¬ ((AppSettings.mk ⟨1/5, 2⟩ ⟨10, 300, 5⟩
          ⟨640, 480⟩).model.person_confidence_threshold ≤ 1) ∧
      ¬ ((AppSettings.mk ⟨1/5, 2⟩ ⟨10, 300, 5⟩
          ⟨640, 480⟩).detection.min_overlap_threshold ≤ 1) := by
  refine ⟨?_, by norm_num, by norm_num⟩
  norm_num [AppSettings.validate]

/-- Witness for C4 (amended) at a concrete passing configuration. -/
theorem validate_checks_core_ranges_witness :
    0 ≤ (AppSettings.mk ⟨1/5, 1/4⟩ ⟨10, 300, 3/10⟩
        ⟨640, 480⟩).detection.alert_cooldown ∧
      0 < (AppSettings.mk ⟨1/5, 1/4⟩ ⟨10, 300, 3/10⟩
        ⟨640, 480⟩).detection.check_interval ∧
      0 ≤ (AppSettings.mk ⟨1/5, 1/4⟩ ⟨10, 300, 3/10⟩
        ⟨640, 480⟩).model.confidence_threshold ∧
      (AppSettings.mk ⟨1/5, 1/4⟩ ⟨10, 300, 3/10⟩
        ⟨640, 480⟩).model.confidence_threshold ≤ 1 ∧
      0 < (AppSettings.mk ⟨1/5, 1/4⟩ ⟨10, 300, 3/10⟩ ⟨640, 480⟩).camera.width ∧
      0 < (AppSettings.mk ⟨1/5, 1/4⟩ ⟨10, 300, 3/10⟩
        ⟨640, 480⟩).camera.height :=
  validate_checks_core_ranges ⟨⟨1/5, 1/4⟩, ⟨10, 300, 3/10⟩, ⟨640, 480⟩⟩
    (by norm_num [AppSettings.validate])
